import Mathlib

/-!
Verification of the route-ranking pipeline of urban-health-watch.

Shallow embedding of `src/hooks/useRouteCalculation.ts` and
`src/pages/RoutePlanner.tsx`.  External HTTP calls (geocoding, the
OpenRouteService routing call, the OpenAQ air-quality lookup) are modelled by
explicit outcome parameters describing what the network returned; numbers are
modelled by `ℚ`; `Math.sqrt` (used only for the fallback distance) is passed in
as an abstract function, since square roots of rationals are not rational.
-/

namespace UrbanHealthWatch

/-- A coordinate, latitude first, as used throughout the hook. -/
abbrev Coord := ℚ × ℚ

/-- `interface AQIData { lat; lon; aqi }` from `useRouteCalculation.ts`. -/
structure AQIData where
  lat : ℚ
  lon : ℚ
  aqi : ℚ
deriving DecidableEq, Repr, Inhabited

/-- The value produced by `getRouteFromORS`: `{ coordinates; distance; duration }`. -/
structure RouteCandidate where
  coordinates : List Coord
  distance : ℚ
  duration : ℚ
deriving DecidableEq, Repr, Inhabited

/-- `RouteData` from `RoutePlanner.tsx`. -/
structure RouteData where
  id : String
  coordinates : List Coord
  distance : ℚ
  duration : ℚ
  avgAqi : ℚ
  aqiPoints : List AQIData
deriving DecidableEq, Repr, Inhabited

/-- One entry of `data.results[0].measurements` in the OpenAQ payload. -/
structure Measurement where
  parameter : String
  value : ℚ
deriving DecidableEq, Repr

/-- One entry of `data.results` in the OpenAQ payload. -/
structure OpenAQResult where
  measurements : List Measurement
deriving DecidableEq, Repr

/-- What the OpenAQ lookup in `fetchAQIData` came back with: a parsed payload,
or a thrown failure (network error or unparsable body), which the source
catches. -/
inductive AQIOutcome where
  | ok (results : List OpenAQResult)
  | fetchError
deriving DecidableEq, Repr

/-- `fetchAQIData` from `useRouteCalculation.ts`.  `rand` stands for the
`Math.random()` draw used by the simulated fallback.  The source checks
`measurements && measurements.length > 0` before calling `find`; `List.find?`
returns `none` on the empty list, so the two have the same meaning here. -/
def fetchAQIData (outcome : AQIOutcome) (rand : ℚ) : ℚ :=
  match outcome with
  | .fetchError => 75
  | .ok results =>
    match results with
    | [] => 50 + rand * 100
    | r :: _ =>
      match r.measurements.find? (fun m => m.parameter == "pm25") with
      | some pm25 => pm25.value * (417 / 100)
      | none => 50 + rand * 100

/-- The pm25 measurement that `fetchAQIData` would extract from an outcome,
used to state its input/output characterisation. -/
def pm25Value (outcome : AQIOutcome) : Option ℚ :=
  match outcome with
  | .fetchError => none
  | .ok [] => none
  | .ok (r :: _) =>
    (r.measurements.find? (fun m => m.parameter == "pm25")).map (fun m => m.value)

/-- One GeoJSON feature of the OpenRouteService payload: its geometry (in the
service's native longitude-first order) and `properties.segments[0]`'s
distance and duration. -/
structure ORSFeature where
  geometry : List (ℚ × ℚ)
  distance : ℚ
  duration : ℚ
deriving DecidableEq, Repr

/-- What the OpenRouteService call in `getRouteFromORS` came back with.
`httpError` is `!response.ok` (the source then throws and catches);
`parseError` is a thrown network/JSON failure; `ok features` is a parsed
payload with its `features` array. -/
inductive ORSOutcome where
  | httpError
  | parseError
  | ok (features : List ORSFeature)
deriving DecidableEq, Repr

/-- The straight-line fallback route built in the `catch` of
`getRouteFromORS`: origin, midpoint, destination; distance
`Math.sqrt((Δlat)² + (Δlon)²) * 111000`; duration 3600. -/
def fallbackRoute (sqrt : ℚ → ℚ) (start end_ : Coord) : RouteCandidate :=
  { coordinates := [(start.1, start.2),
                    ((start.1 + end_.1) / 2, (start.2 + end_.2) / 2),
                    (end_.1, end_.2)],
    distance := sqrt ((end_.1 - start.1) ^ 2 + (end_.2 - start.2) ^ 2) * 111000,
    duration := 3600 }

/-- `getRouteFromORS` from `useRouteCalculation.ts`.  On a parsed payload with
a nonempty `features` array it returns the first feature, swapping each
geometry coordinate to latitude-first; on a parsed payload with an empty
`features` array it returns `null`; on a thrown failure (HTTP error or
unparsable payload) the `catch` returns the straight-line fallback. -/
def getRouteFromORS (sqrt : ℚ → ℚ) (start end_ : Coord) (outcome : ORSOutcome) :
    Option RouteCandidate :=
  match outcome with
  | .ok (feature :: _) =>
    some { coordinates := feature.geometry.map (fun coord => (coord.2, coord.1)),
           distance := feature.distance,
           duration := feature.duration }
  | .ok [] => none
  | .httpError => some (fallbackRoute sqrt start end_)
  | .parseError => some (fallbackRoute sqrt start end_)

/-- The `for (let i = 0; i < coordinates.length; i += sampleInterval)` loop of
`calculateAQIAlongRoute`.  The guard carries `0 < sampleInterval` for
termination; every call passes a positive interval, so the meaning is
unchanged. -/
def aqiSampleLoop (sampler : ℚ → ℚ → ℚ) (coordinates : List Coord)
    (sampleInterval : Nat) (i : Nat) : List AQIData :=
  if _h : i < coordinates.length ∧ 0 < sampleInterval then
    let coord := coordinates.getD i (0, 0)
    { lat := coord.1, lon := coord.2, aqi := sampler coord.1 coord.2 } ::
      aqiSampleLoop sampler coordinates sampleInterval (i + sampleInterval)
  else
    []
termination_by coordinates.length - i
decreasing_by omega

/-- `calculateAQIAlongRoute` from `useRouteCalculation.ts`: sample the
air-quality sampler at stride `Math.max(1, Math.floor(coordinates.length / 10))`
along the path. -/
def calculateAQIAlongRoute (sampler : ℚ → ℚ → ℚ) (coordinates : List Coord) :
    List AQIData :=
  aqiSampleLoop sampler coordinates (max 1 (coordinates.length / 10)) 0

/-- The body of the `validRoutes.map(async (route, index) => ...)` in
`calculateRoutes`: sample along the route, average, and assemble `RouteData`. -/
def evaluateRoute (sampler : ℚ → ℚ → ℚ) (index : Nat) (route : RouteCandidate) :
    RouteData :=
  let aqiPoints := calculateAQIAlongRoute sampler route.coordinates
  let avgAqi := (aqiPoints.foldl (fun sum point => sum + point.aqi) (0 : ℚ)) / (aqiPoints.length : ℚ)
  { id := "route-" ++ toString index,
    coordinates := route.coordinates,
    distance := route.distance,
    duration := route.duration,
    avgAqi := avgAqi,
    aqiPoints := aqiPoints }

/-- The `routesWithAQI.sort((a, b) => a.avgAqi - b.avgAqi)` step of
`calculateRoutes`.  ECMAScript `Array.prototype.sort` is a stable sort, and
with this comparator it orders ascending by `avgAqi`; it is modelled by the
stable `List.mergeSort` keyed the same way. -/
def rank (routesWithAQI : List RouteData) : List RouteData :=
  routesWithAQI.mergeSort (fun a b => decide (a.avgAqi ≤ b.avgAqi))

/-- The two travel profiles requested by `calculateRoutes`. -/
def routeProfiles : List String := ["driving-car", "cycling-regular"]

/-- `calculateRoutes` from `useRouteCalculation.ts`.  `geocode` stands for
`geocodeLocation` (which returns `null` when Nominatim finds nothing or the
call fails), `ors` gives the routing outcome per profile, `sampler` stands for
`fetchAQIData` at a coordinate.  Errors thrown and caught into the `error`
state are modelled by `Except.error` with the thrown message. -/
def calculateRoutes (geocode : String → Option Coord) (sqrt : ℚ → ℚ)
    (ors : String → ORSOutcome) (sampler : ℚ → ℚ → ℚ)
    (startLocation endLocation : String) : Except String (List RouteData) :=
  match geocode startLocation, geocode endLocation with
  | some start, some end_ =>
    let routeResults := routeProfiles.map
      (fun profile => getRouteFromORS sqrt start end_ (ors profile))
    let validRoutes := routeResults.filterMap id
    if validRoutes.isEmpty then
      .error "No routes found"
    else
      .ok (rank (validRoutes.mapIdx (fun index route => evaluateRoute sampler index route)))
  | _, _ => .error "Could not find one or both locations"

/-- `getCleanestRoute` from `RoutePlanner.tsx`:
`routes.reduce((prev, current) => current.avgAqi < prev.avgAqi ? current : prev)`,
`null` on an empty list. -/
def getCleanestRoute (routes : List RouteData) : Option RouteData :=
  match routes with
  | [] => none
  | first :: rest =>
    some (rest.foldl
      (fun prev current => if current.avgAqi < prev.avgAqi then current else prev) first)

/-- `cleanerPercent` from `RoutePlanner.tsx`:
`Math.round(((route.avgAqi - cleanestRoute.avgAqi) / cleanestRoute.avgAqi) * 100)`.
`Math.round` rounds half toward positive infinity, matching `round`. -/
def cleanerPercent (route cleanestRoute : RouteData) : ℤ :=
  round (((route.avgAqi - cleanestRoute.avgAqi) / cleanestRoute.avgAqi) * 100)

/-- The premium badge of `RoutePlanner.tsx`: rendered only when
`!isCleanest && cleanerPercent > 0` (where `isCleanest` compares route ids). -/
def displayedPremium (route cleanestRoute : RouteData) : Option ℤ :=
  if route.id ≠ cleanestRoute.id ∧ 0 < cleanerPercent route cleanestRoute then
    some (cleanerPercent route cleanestRoute)
  else
    none

/-- A concrete evaluated route with a low mean, for instantiating theorems. -/
def routeLow : RouteData :=
  { id := "route-0", coordinates := [(0, 0)], distance := 1000, duration := 600,
    avgAqi := 10, aqiPoints := [{ lat := 0, lon := 0, aqi := 10 }] }

/-- A concrete evaluated route with a high mean, for instantiating theorems. -/
def routeHigh : RouteData :=
  { id := "route-1", coordinates := [(1, 1)], distance := 2000, duration := 1200,
    avgAqi := 20, aqiPoints := [{ lat := 1, lon := 1, aqi := 20 }] }

/-- A concrete evaluated route whose mean ties `routeLow`, for instantiating
the stability theorem. -/
def routeTie : RouteData :=
  { id := "route-2", coordinates := [(2, 2)], distance := 3000, duration := 1800,
    avgAqi := 10, aqiPoints := [{ lat := 2, lon := 2, aqi := 10 }] }

/-- A concrete route candidate, for instantiating theorems. -/
def candidateA : RouteCandidate :=
  { coordinates := [(0, 0), (1, 1)], distance := 1000, duration := 600 }

/- ------------------------------------------------------------------ -/
/- Helper lemmas shared by the claim theorems.                         -/
/- ------------------------------------------------------------------ -/

theorem rankLE_trans (a b c : RouteData) (hab : decide (a.avgAqi ≤ b.avgAqi) = true)
    (hbc : decide (b.avgAqi ≤ c.avgAqi) = true) :
    decide (a.avgAqi ≤ c.avgAqi) = true := by
  rw [decide_eq_true_eq] at hab hbc ⊢
  exact le_trans hab hbc

theorem rankLE_total (a b : RouteData) :
    (decide (a.avgAqi ≤ b.avgAqi) || decide (b.avgAqi ≤ a.avgAqi)) = true := by
  rcases le_total a.avgAqi b.avgAqi with h | h <;> simp [h]

theorem ceilDiv_succ {d s : Nat} (hs : 0 < s) (hd : 0 < d) :
    (d + s - 1) / s = (d - 1) / s + 1 := by
  have h : d + s - 1 = (d - 1) + s := by omega
  rw [h, Nat.add_div_right _ hs]

/-- The sampling loop starting at index `i` performs `⌈(length - i) / s⌉`
iterations, one sampler call each. -/
theorem aqiSampleLoop_length (sampler : ℚ → ℚ → ℚ) (coordinates : List Coord)
    (s : Nat) (hs : 0 < s) (i : Nat) :
    (aqiSampleLoop sampler coordinates s i).length =
      (coordinates.length - i + s - 1) / s := by
  rw [aqiSampleLoop]
  by_cases h : i < coordinates.length
  · rw [dif_pos ⟨h, hs⟩]
    simp only [List.length_cons]
    rw [aqiSampleLoop_length sampler coordinates s hs (i + s)]
    rw [ceilDiv_succ hs (by omega : 0 < coordinates.length - i)]
    by_cases hd : coordinates.length - i ≤ s
    · have h1 : coordinates.length - (i + s) + s - 1 = s - 1 := by omega
      rw [h1, Nat.div_eq_of_lt (by omega), Nat.div_eq_of_lt (by omega)]
    · have h1 : coordinates.length - (i + s) + s - 1 = coordinates.length - i - 1 := by
        omega
      rw [h1]
  · rw [dif_neg (fun hc => h hc.1)]
    have h1 : coordinates.length - i + s - 1 = s - 1 := by omega
    rw [List.length_nil, h1, Nat.div_eq_of_lt (by omega)]
termination_by coordinates.length - i
decreasing_by omega

/-- `calculateAQIAlongRoute` takes `⌈L / stride⌉` samples where
`stride = max 1 (L / 10)`. -/
theorem calculateAQIAlongRoute_length (sampler : ℚ → ℚ → ℚ)
    (coordinates : List Coord) :
    (calculateAQIAlongRoute sampler coordinates).length =
      (coordinates.length + max 1 (coordinates.length / 10) - 1) /
        max 1 (coordinates.length / 10) := by
  rw [calculateAQIAlongRoute, aqiSampleLoop_length _ _ _ (by omega) 0]
  simp

/- ------------------------------------------------------------------ -/
/- C1                                                                  -/
/- ------------------------------------------------------------------ -/

/-- C1 (amended): for a path of length `L ≥ 1` the evaluator performs exactly
`⌈L / stride⌉` sampler calls with `stride = max 1 (⌊L / 10⌋)`, and this count
never exceeds 19 (the cap of 11 claimed by the spec fails for
`10 ≤ L ≤ 89`, e.g. `L = 12` gives 12 calls; the true worst case is `L = 19`
with 19 calls). -/
theorem sampling_call_count (sampler : ℚ → ℚ → ℚ) (coordinates : List Coord)
    (hL : 1 ≤ coordinates.length) :
    (calculateAQIAlongRoute sampler coordinates).length =
      (coordinates.length + max 1 (coordinates.length / 10) - 1) /
        max 1 (coordinates.length / 10) ∧
    (calculateAQIAlongRoute sampler coordinates).length ≤ 19 := by
  refine ⟨calculateAQIAlongRoute_length sampler coordinates, ?_⟩
  rw [calculateAQIAlongRoute_length]
  have hs : 0 < max 1 (coordinates.length / 10) := by omega
  have h20 : (coordinates.length + max 1 (coordinates.length / 10) - 1) /
      max 1 (coordinates.length / 10) < 20 := by
    rw [Nat.div_lt_iff_lt_mul hs]
    omega
  omega

/-- Witness for C1 at the concrete 5-point path: 5 calls, within the bound. -/
theorem sampling_call_count_witness :
    (calculateAQIAlongRoute (fun _ _ => 0) (List.replicate 5 ((0 : ℚ), (0 : ℚ)))).length =
      ((List.replicate 5 ((0 : ℚ), (0 : ℚ))).length +
          max 1 ((List.replicate 5 ((0 : ℚ), (0 : ℚ))).length / 10) - 1) /
        max 1 ((List.replicate 5 ((0 : ℚ), (0 : ℚ))).length / 10) ∧
    (calculateAQIAlongRoute (fun _ _ => 0) (List.replicate 5 ((0 : ℚ), (0 : ℚ)))).length ≤ 19 :=
  sampling_call_count (fun _ _ => 0) (List.replicate 5 ((0 : ℚ), (0 : ℚ))) (by simp)

/-- C1 counterexample: a 12-point path costs 12 sampler calls, exceeding the
claimed cap of 11. -/
theorem sampling_cap_counterexample :
    ¬ ((calculateAQIAlongRoute (fun _ _ => 0)
        (List.replicate 12 ((0 : ℚ), (0 : ℚ)))).length ≤ 11) := by
  rw [calculateAQIAlongRoute_length]
  simp

/- ------------------------------------------------------------------ -/
/- C2                                                                  -/
/- ------------------------------------------------------------------ -/

/-- C2 (amended): when the external routing call throws (HTTP error or
unparsable payload), `getRouteFromORS` returns the non-null 3-point fallback
(origin, midpoint, destination) whose duration is 3600 > 0 and, for distinct
origin and destination and any square root positive on positive inputs, whose
distance is > 0.  But a well-formed payload with an empty feature list is
answered with `null`, not with the fallback, so the failure does reach the
caller in that case. -/
theorem fallback_on_thrown_failure (sqrt : ℚ → ℚ) (start end_ : Coord)
    (hsqrt : ∀ x : ℚ, 0 < x → 0 < sqrt x) (hne : start ≠ end_)
    (outcome : ORSOutcome)
    (hth : outcome = ORSOutcome.httpError ∨ outcome = ORSOutcome.parseError) :
    getRouteFromORS sqrt start end_ outcome = some (fallbackRoute sqrt start end_) ∧
    (fallbackRoute sqrt start end_).coordinates.length = 3 ∧
    0 < (fallbackRoute sqrt start end_).distance ∧
    0 < (fallbackRoute sqrt start end_).duration ∧
    getRouteFromORS sqrt start end_ (.ok []) = none := by
  have hsum : 0 < (end_.1 - start.1) ^ 2 + (end_.2 - start.2) ^ 2 := by
    have hor : start.1 ≠ end_.1 ∨ start.2 ≠ end_.2 := by
      by_contra hc
      push_neg at hc
      exact hne (Prod.ext_iff.mpr ⟨hc.1, hc.2⟩)
    rcases hor with h | h
    · have h2 := sq_pos_of_ne_zero (sub_ne_zero.mpr (Ne.symm h))
      nlinarith [sq_nonneg (end_.2 - start.2)]
    · have h2 := sq_pos_of_ne_zero (sub_ne_zero.mpr (Ne.symm h))
      nlinarith [sq_nonneg (end_.1 - start.1)]
  refine ⟨?_, rfl, mul_pos (hsqrt _ hsum) (by norm_num), by norm_num [fallbackRoute], rfl⟩
  rcases hth with h | h <;> rw [h] <;> rfl

/-- Witness for C2 (amended) at Bangalore/Mysore coordinates with the identity
as the abstract square root. -/
theorem fallback_on_thrown_failure_witness :
    getRouteFromORS (fun x => x) ((1297 : ℚ) / 100, (7759 : ℚ) / 100)
        ((1230 : ℚ) / 100, (7665 : ℚ) / 100) ORSOutcome.httpError =
      some (fallbackRoute (fun x => x) ((1297 : ℚ) / 100, (7759 : ℚ) / 100)
        ((1230 : ℚ) / 100, (7665 : ℚ) / 100)) ∧
    (fallbackRoute (fun x => x) ((1297 : ℚ) / 100, (7759 : ℚ) / 100)
        ((1230 : ℚ) / 100, (7665 : ℚ) / 100)).coordinates.length = 3 ∧
    0 < (fallbackRoute (fun x => x) ((1297 : ℚ) / 100, (7759 : ℚ) / 100)
        ((1230 : ℚ) / 100, (7665 : ℚ) / 100)).distance ∧
    0 < (fallbackRoute (fun x => x) ((1297 : ℚ) / 100, (7759 : ℚ) / 100)
        ((1230 : ℚ) / 100, (7665 : ℚ) / 100)).duration ∧
    getRouteFromORS (fun x => x) ((1297 : ℚ) / 100, (7759 : ℚ) / 100)
        ((1230 : ℚ) / 100, (7665 : ℚ) / 100) (.ok []) = none :=
  fallback_on_thrown_failure (fun x => x) ((1297 : ℚ) / 100, (7759 : ℚ) / 100)
    ((1230 : ℚ) / 100, (7665 : ℚ) / 100) (fun _ hx => hx)
    (by intro h; rw [Prod.mk.injEq] at h; norm_num at h)
    ORSOutcome.httpError (Or.inl rfl)

/-- C2 counterexample: on a well-formed response whose feature list is empty,
`getRouteFromORS` returns `none` instead of the claimed non-null 3-point
fallback. -/
theorem fallback_counterexample :
    getRouteFromORS (fun x => x) ((1297 : ℚ) / 100, (7759 : ℚ) / 100)
      ((1230 : ℚ) / 100, (7665 : ℚ) / 100) (.ok []) = none := rfl

/- ------------------------------------------------------------------ -/
/- C3                                                                  -/
/- ------------------------------------------------------------------ -/

/-- C3 (amended): for every outcome of the air-quality lookup, `fetchAQIData`
returns a numeric index: the found pm25 value times 4.17 when a pm25
measurement is present, 75 on a thrown lookup failure, and the simulated value
`50 + rand·100` (which lies in `[50, 150)` for `rand ∈ [0, 1)`) otherwise.
No clamping to `[0, 500]` is performed anywhere. -/
theorem fetchAQIData_total (outcome : AQIOutcome) (rand : ℚ)
    (h0 : 0 ≤ rand) (h1 : rand < 1) :
    fetchAQIData outcome rand =
      (match pm25Value outcome with
       | some v => v * (417 / 100)
       | none =>
         if outcome = AQIOutcome.fetchError then 75 else 50 + rand * 100) ∧
    50 ≤ 50 + rand * 100 ∧ 50 + rand * 100 < 150 := by
  refine ⟨?_, by nlinarith, by nlinarith⟩
  match outcome with
  | .fetchError => rfl
  | .ok [] => rfl
  | .ok (r :: rest) =>
    simp only [fetchAQIData, pm25Value]
    match hfind : r.measurements.find? (fun m => m.parameter == "pm25") with
    | some pm25 => rw [hfind]; rfl
    | none => rw [hfind]; rfl

/-- Witness for C3 (amended) at the empty-results outcome and `rand = 1/2`. -/
theorem fetchAQIData_total_witness :
    fetchAQIData (.ok []) (1 / 2) =
      (match pm25Value (.ok []) with
       | some v => v * (417 / 100)
       | none =>
         if AQIOutcome.ok [] = AQIOutcome.fetchError then 75
         else 50 + (1 / 2 : ℚ) * 100) ∧
    (50 : ℚ) ≤ 50 + (1 / 2 : ℚ) * 100 ∧ 50 + (1 / 2 : ℚ) * 100 < 150 :=
  fetchAQIData_total (.ok []) (1 / 2) (by norm_num) (by norm_num)

/-- C3 counterexample: a pm25 reading of 200 makes `fetchAQIData` return
834, which is outside the claimed clamp range `[0, 500]`. -/
theorem clamping_counterexample :
    fetchAQIData (.ok [{ measurements := [{ parameter := "pm25", value := 200 }] }]) 0 = 834 ∧
    ¬ (fetchAQIData (.ok [{ measurements := [{ parameter := "pm25", value := 200 }] }]) 0 ≤ 500) := by
  constructor <;> norm_num [fetchAQIData, List.find?]

/- ------------------------------------------------------------------ -/
/- C4, C5, C9                                                          -/
/- ------------------------------------------------------------------ -/

/-- C4: `rank` sorts ascending by mean pollution index, and the first element
of the output has a mean no greater than any route of the input. -/
theorem rank_sorted (routes : List RouteData) :
    List.Pairwise (fun a b => a.avgAqi ≤ b.avgAqi) (rank routes) ∧
    (routes.all fun r =>
      decide (((rank routes).headD default).avgAqi ≤ r.avgAqi)) = true := by
  have hsorted : List.Pairwise
      (fun a b => decide (a.avgAqi ≤ b.avgAqi) = true) (rank routes) :=
    List.sorted_mergeSort rankLE_trans rankLE_total routes
  constructor
  · exact hsorted.imp fun h => of_decide_eq_true h
  · rw [List.all_eq_true]
    intro r hr
    rw [decide_eq_true_eq]
    have hmem : r ∈ rank routes := by
      rw [rank, List.mem_mergeSort]
      exact hr
    cases hrk : rank routes with
    | nil => exact absurd (hrk ▸ hmem) (List.not_mem_nil r)
    | cons a t =>
      rw [hrk] at hmem hsorted
      simp only [List.headD_cons]
      rcases List.mem_cons.mp hmem with rfl | hmem
      · exact le_refl _
      · exact of_decide_eq_true ((List.pairwise_cons.mp hsorted).1 r hmem)

/-- C5: ranking is stable: two routes with identical means that appear as an
ordered (not necessarily contiguous) pair of the input appear in the same
relative order in the output. -/
theorem rank_stable (routes : List RouteData) (a b : RouteData)
    (hmean : a.avgAqi = b.avgAqi) (hsub : [a, b].Sublist routes) :
    [a, b].Sublist (rank routes) :=
  List.pair_sublist_mergeSort rankLE_trans rankLE_total
    (by rw [decide_eq_true_eq, hmean]) hsub

/-- Witness for C5 at two concrete routes sharing mean 10. -/
theorem rank_stable_witness :
    [routeLow, routeTie].Sublist (rank [routeLow, routeTie]) :=
  rank_stable [routeLow, routeTie] routeLow routeTie rfl (List.Sublist.refl _)

/-- C9: ranking only reorders: its output is a permutation of its input, so
every route's pollution data, samples, coordinates, distance and duration pass
through unchanged. -/
theorem rank_perm (routes : List RouteData) : (rank routes).Perm routes :=
  List.mergeSort_perm routes _

/- ------------------------------------------------------------------ -/
/- C6                                                                  -/
/- ------------------------------------------------------------------ -/

/-- The `reduce` of `getCleanestRoute` returns a value whose mean is below the
accumulator's and below every listed route's. -/
theorem foldl_min_le (rest : List RouteData) (acc : RouteData) :
    (rest.foldl
      (fun prev current => if current.avgAqi < prev.avgAqi then current else prev)
      acc).avgAqi ≤ acc.avgAqi ∧
    ∀ x ∈ rest,
      (rest.foldl
        (fun prev current => if current.avgAqi < prev.avgAqi then current else prev)
        acc).avgAqi ≤ x.avgAqi := by
  induction rest generalizing acc with
  | nil => simp
  | cons y ys ih =>
    simp only [List.foldl_cons]
    have hstep : (if y.avgAqi < acc.avgAqi then y else acc).avgAqi ≤ acc.avgAqi := by
      by_cases hy : y.avgAqi < acc.avgAqi
      · rw [if_pos hy]; exact le_of_lt hy
      · rw [if_neg hy]
    have hstepy : (if y.avgAqi < acc.avgAqi then y else acc).avgAqi ≤ y.avgAqi := by
      by_cases hy : y.avgAqi < acc.avgAqi
      · rw [if_pos hy]
      · rw [if_neg hy]; exact not_lt.mp hy
    refine ⟨le_trans (ih _).1 hstep, ?_⟩
    intro x hx
    rcases List.mem_cons.mp hx with rfl | hx
    · exact le_trans (ih _).1 hstepy
    · exact (ih _).2 x hx

/-- The recommended route of `getCleanestRoute` has the minimum mean. -/
theorem getCleanestRoute_le (routes : List RouteData) (r c : RouteData)
    (hr : r ∈ routes) (hc : getCleanestRoute routes = some c) :
    c.avgAqi ≤ r.avgAqi := by
  cases routes with
  | nil => exact absurd hr (List.not_mem_nil r)
  | cons first rest =>
    simp only [getCleanestRoute, Option.some.injEq] at hc
    subst hc
    rcases List.mem_cons.mp hr with rfl | hr
    · exact (foldl_min_le rest r).1
    · exact (foldl_min_le rest first).2 r hr

/-- C6: when the recommended (minimum-mean) route has positive mean, the
rounded relative exposure premium of every route of the plan against it is
nonnegative, and the premium badge (shown only when positive) never carries a
negative value. -/
theorem cleanerPercent_nonneg (routes : List RouteData) (r c : RouteData)
    (hr : r ∈ routes) (hc : getCleanestRoute routes = some c)
    (hpos : 0 < c.avgAqi) :
    0 ≤ cleanerPercent r c ∧ 0 ≤ (displayedPremium r c).getD 0 := by
  have hle := getCleanestRoute_le routes r c hr hc
  have h1 : 0 ≤ cleanerPercent r c := by
    rw [cleanerPercent, round_eq]
    refine Int.floor_nonneg.mpr ?_
    have hfrac : 0 ≤ (r.avgAqi - c.avgAqi) / c.avgAqi * 100 :=
      mul_nonneg (div_nonneg (by linarith) hpos.le) (by norm_num)
    linarith
  refine ⟨h1, ?_⟩
  rw [displayedPremium]
  split
  · simpa using h1
  · simp

/-- Witness for C6 at the concrete two-route plan. -/
theorem cleanerPercent_nonneg_witness :
    0 ≤ cleanerPercent routeHigh routeLow ∧
    0 ≤ (displayedPremium routeHigh routeLow).getD 0 :=
  cleanerPercent_nonneg [routeLow, routeHigh] routeHigh routeLow
    (by simp) (by norm_num [getCleanestRoute, routeLow, routeHigh])
    (by norm_num [routeLow])

/- ------------------------------------------------------------------ -/
/- C7                                                                  -/
/- ------------------------------------------------------------------ -/

/-- C7: when either endpoint fails to geocode, `calculateRoutes` surfaces the
endpoint-resolution error whatever the routing and sampling environments would
have answered (so no route fetch or sample can influence the outcome and no
partial result is produced); that error is distinct from the no-routes error,
which is the one surfaced when both endpoints resolve but every profile's
payload carries an empty feature list. -/
theorem geocode_failure_error (geocode : String → Option Coord) (sqrt : ℚ → ℚ)
    (ors : String → ORSOutcome) (sampler : ℚ → ℚ → ℚ)
    (startLocation endLocation : String)
    (h : geocode startLocation = none ∨ geocode endLocation = none) :
    calculateRoutes geocode sqrt ors sampler startLocation endLocation =
      .error "Could not find one or both locations" ∧
    "Could not find one or both locations" ≠ "No routes found" ∧
    calculateRoutes (fun _ => some (0, 0)) sqrt (fun _ => ORSOutcome.ok [])
        sampler startLocation endLocation = .error "No routes found" := by
  refine ⟨?_, by decide, rfl⟩
  rcases h with h | h
  · cases hend : geocode endLocation <;>
      simp [calculateRoutes, h, hend]
  · cases hstart : geocode startLocation <;>
      simp [calculateRoutes, h, hstart]

/-- Witness for C7: an always-failing geocoder (empty origin text included)
yields the endpoint-resolution error. -/
theorem geocode_failure_error_witness :
    calculateRoutes (fun _ => none) (fun x => x) (fun _ => ORSOutcome.ok [])
        (fun _ _ => 0) "" "Mysore, India" =
      .error "Could not find one or both locations" ∧
    "Could not find one or both locations" ≠ "No routes found" ∧
    calculateRoutes (fun _ => some (0, 0)) (fun x => x)
        (fun _ => ORSOutcome.ok []) (fun _ _ => 0) "" "Mysore, India" =
      .error "No routes found" :=
  geocode_failure_error (fun _ => none) (fun x => x) (fun _ => ORSOutcome.ok [])
    (fun _ _ => 0) "" "Mysore, India" (Or.inl rfl)

/- ------------------------------------------------------------------ -/
/- C8                                                                  -/
/- ------------------------------------------------------------------ -/

/-- C8: a route whose path has at least one coordinate always receives at
least one sample; the first sample is taken at path index 0; and the mean
pollution index times the sample count equals the sum of exactly the samples
taken. -/
theorem evaluateRoute_mean (sampler : ℚ → ℚ → ℚ) (index : Nat)
    (route : RouteCandidate) (hne : route.coordinates ≠ []) :
    (evaluateRoute sampler index route).aqiPoints ≠ [] ∧
    ((evaluateRoute sampler index route).aqiPoints.getD 0 default).lat =
      (route.coordinates.getD 0 (0, 0)).1 ∧
    ((evaluateRoute sampler index route).aqiPoints.getD 0 default).lon =
      (route.coordinates.getD 0 (0, 0)).2 ∧
    (evaluateRoute sampler index route).avgAqi *
        ((evaluateRoute sampler index route).aqiPoints.length : ℚ) =
      (evaluateRoute sampler index route).aqiPoints.foldl
        (fun sum point => sum + point.aqi) 0 := by
  have hlen : 0 < route.coordinates.length := List.length_pos.mpr hne
  have hguard : 0 < route.coordinates.length ∧
      0 < max 1 (route.coordinates.length / 10) := ⟨hlen, by omega⟩
  have hfirst : calculateAQIAlongRoute sampler route.coordinates =
      (let coord := route.coordinates.getD 0 (0, 0)
       { lat := coord.1, lon := coord.2, aqi := sampler coord.1 coord.2 }) ::
        aqiSampleLoop sampler route.coordinates
          (max 1 (route.coordinates.length / 10))
          (0 + max 1 (route.coordinates.length / 10)) := by
    rw [calculateAQIAlongRoute, aqiSampleLoop, dif_pos hguard]
  have hpoints : (evaluateRoute sampler index route).aqiPoints =
      calculateAQIAlongRoute sampler route.coordinates := rfl
  have hne2 : (evaluateRoute sampler index route).aqiPoints ≠ [] := by
    rw [hpoints, hfirst]
    exact List.cons_ne_nil _ _
  refine ⟨hne2, ?_, ?_, ?_⟩
  · rw [hpoints, hfirst]; rfl
  · rw [hpoints, hfirst]; rfl
  · have hcast : ((evaluateRoute sampler index route).aqiPoints.length : ℚ) ≠ 0 := by
      rw [Nat.cast_ne_zero]
      exact fun h => hne2 (List.length_eq_zero.mp h)
    have havg : (evaluateRoute sampler index route).avgAqi =
        ((evaluateRoute sampler index route).aqiPoints.foldl
          (fun sum point => sum + point.aqi) 0) /
          ((evaluateRoute sampler index route).aqiPoints.length : ℚ) := rfl
    rw [havg, div_mul_cancel₀ _ hcast]

/-- Witness for C8 at a concrete two-point candidate and constant sampler. -/
theorem evaluateRoute_mean_witness :
    (evaluateRoute (fun _ _ => 7) 0 candidateA).aqiPoints ≠ [] ∧
    ((evaluateRoute (fun _ _ => 7) 0 candidateA).aqiPoints.getD 0 default).lat =
      (candidateA.coordinates.getD 0 (0, 0)).1 ∧
    ((evaluateRoute (fun _ _ => 7) 0 candidateA).aqiPoints.getD 0 default).lon =
      (candidateA.coordinates.getD 0 (0, 0)).2 ∧
    (evaluateRoute (fun _ _ => 7) 0 candidateA).avgAqi *
        ((evaluateRoute (fun _ _ => 7) 0 candidateA).aqiPoints.length : ℚ) =
      (evaluateRoute (fun _ _ => 7) 0 candidateA).aqiPoints.foldl
        (fun sum point => sum + point.aqi) 0 :=
  evaluateRoute_mean (fun _ _ => 7) 0 candidateA (by simp [candidateA])

/- ------------------------------------------------------------------ -/
/- C10                                                                 -/
/- ------------------------------------------------------------------ -/

/-- The `k`-th entry produced by the sampling loop started at index `i` is the
sample taken at path index `i + k·stride`. -/
theorem aqiSampleLoop_getD (sampler : ℚ → ℚ → ℚ) (coordinates : List Coord)
    (s : Nat) (k : Nat) : ∀ i,
    k < (aqiSampleLoop sampler coordinates s i).length →
    i + k * s < coordinates.length ∧
    (aqiSampleLoop sampler coordinates s i).getD k default =
      { lat := (coordinates.getD (i + k * s) (0, 0)).1,
        lon := (coordinates.getD (i + k * s) (0, 0)).2,
        aqi := sampler (coordinates.getD (i + k * s) (0, 0)).1
          (coordinates.getD (i + k * s) (0, 0)).2 } := by
  induction k with
  | zero =>
    intro i hk
    rw [aqiSampleLoop] at hk ⊢
    by_cases h : i < coordinates.length ∧ 0 < s
    · rw [dif_pos h] at hk ⊢
      simp only [Nat.zero_mul, Nat.add_zero]
      exact ⟨h.1, rfl⟩
    · rw [dif_neg h] at hk
      exact absurd hk (by simp)
  | succ k ih =>
    intro i hk
    rw [aqiSampleLoop] at hk ⊢
    by_cases h : i < coordinates.length ∧ 0 < s
    · rw [dif_pos h] at hk ⊢
      simp only [List.length_cons, Nat.succ_lt_succ_iff] at hk
      have hrec := ih (i + s) hk
      have harith : i + (k + 1) * s = i + s + k * s := by ring
      rw [List.getD_cons_succ, harith]
      exact hrec
    · rw [dif_neg h] at hk
      exact absurd hk (by simp)

/-- C10: evaluation carries the candidate's coordinate sequence, distance and
duration unchanged, and the `k`-th exposure sample is taken exactly at path
index `k·stride` — its coordinate is the path coordinate there and samples are
listed in path order. -/
theorem evaluateRoute_frame (sampler : ℚ → ℚ → ℚ) (index : Nat)
    (route : RouteCandidate) (k : Nat)
    (hk : k < (evaluateRoute sampler index route).aqiPoints.length) :
    (evaluateRoute sampler index route).coordinates = route.coordinates ∧
    (evaluateRoute sampler index route).distance = route.distance ∧
    (evaluateRoute sampler index route).duration = route.duration ∧
    k * max 1 (route.coordinates.length / 10) < route.coordinates.length ∧
    (evaluateRoute sampler index route).aqiPoints.getD k default =
      { lat := (route.coordinates.getD
          (k * max 1 (route.coordinates.length / 10)) (0, 0)).1,
        lon := (route.coordinates.getD
          (k * max 1 (route.coordinates.length / 10)) (0, 0)).2,
        aqi := sampler
          (route.coordinates.getD
            (k * max 1 (route.coordinates.length / 10)) (0, 0)).1
          (route.coordinates.getD
            (k * max 1 (route.coordinates.length / 10)) (0, 0)).2 } := by
  have hk2 : k < (aqiSampleLoop sampler route.coordinates
      (max 1 (route.coordinates.length / 10)) 0).length := hk
  have h := aqiSampleLoop_getD sampler route.coordinates
    (max 1 (route.coordinates.length / 10)) k 0 hk2
  rw [Nat.zero_add] at h
  exact ⟨rfl, rfl, rfl, h.1, h.2⟩

/-- Witness for C10 at the concrete two-point candidate, sample index 0. -/
theorem evaluateRoute_frame_witness :
    (evaluateRoute (fun _ _ => 7) 0 candidateA).coordinates = candidateA.coordinates ∧
    (evaluateRoute (fun _ _ => 7) 0 candidateA).distance = candidateA.distance ∧
    (evaluateRoute (fun _ _ => 7) 0 candidateA).duration = candidateA.duration ∧
    0 * max 1 (candidateA.coordinates.length / 10) < candidateA.coordinates.length ∧
    (evaluateRoute (fun _ _ => 7) 0 candidateA).aqiPoints.getD 0 default =
      { lat := (candidateA.coordinates.getD
          (0 * max 1 (candidateA.coordinates.length / 10)) (0, 0)).1,
        lon := (candidateA.coordinates.getD
          (0 * max 1 (candidateA.coordinates.length / 10)) (0, 0)).2,
        aqi := (fun _ _ => (7 : ℚ))
          (candidateA.coordinates.getD
            (0 * max 1 (candidateA.coordinates.length / 10)) (0, 0)).1
          (candidateA.coordinates.getD
            (0 * max 1 (candidateA.coordinates.length / 10)) (0, 0)).2 } :=
  evaluateRoute_frame (fun _ _ => 7) 0 candidateA 0
    (by rw [show (evaluateRoute (fun _ _ => 7) 0 candidateA).aqiPoints =
          calculateAQIAlongRoute (fun _ _ => 7) candidateA.coordinates from rfl,
        calculateAQIAlongRoute_length]
        norm_num [candidateA])

end UrbanHealthWatch
